import Mathlib

/-!
Shallow embedding of the RBAC core of the TerraWeb repository
(server authentication routes, in-memory storage, client auth hooks),
with theorems settling the specification claims about it.

Sources embedded:
  - server auth module (requireAuth, requireRole, setupAuth:
    POST /api/login, POST /api/logout, GET /api/user)
  - server storage module (MemStorage: users map, updateUserRole,
    getSensors, getMeasurements)
  - server routes module (GET /api/sensors, GET /api/measurements,
    PATCH /api/admin/users/:id/role)
  - client hook use-auth (hasRole, permission predicates, AuthProvider
    closures)

JavaScript semantics relevant to the embedding:
  - object-literal lookup of a missing key yields undefined; a numeric
    comparison with undefined is false (NaN comparison); this is modelled
    with Option Nat and an explicit comparison on the Option;
  - the logical-or fallback `x || d` on a string yields d exactly when x
    is the empty string (the only falsy string), modelled explicitly;
  - a JS Map keeps insertion order; set on an existing key replaces the
    value in place; this is modelled by an association list with an
    in-place set operation.
-/

namespace TerraWeb

/-! ### Role hierarchy (client hook use-auth and server auth module) -/

/-- The statically typed role union "admin" | "technician" | "user"
used for the `requiredRole` parameters on client and server. -/
inductive UserRole : Type
  | admin
  | technician
  | user
deriving DecidableEq, Repr

/-- The string each `UserRole` literal denotes at runtime. -/
def UserRole.str : UserRole → String
  | .admin => "admin"
  | .technician => "technician"
  | .user => "user"

/-- Lookup in the object literal roleHierarchy = (admin 3, technician 2,
user 1): a present key yields its number, a missing key yields undefined,
modelled as none. -/
def roleHierarchyLookup (r : String) : Option Nat :=
  if r = "admin" then some 3
  else if r = "technician" then some 2
  else if r = "user" then some 1
  else none

/-- Rank of a statically typed role: the lookup always succeeds. -/
def UserRole.rank : UserRole → Nat
  | .admin => 3
  | .technician => 2
  | .user => 1

/-- The server middleware computes roleHierarchy of the session role with
a logical-or fallback to 0, so an unknown role string ranks 0. -/
def rank (r : String) : Nat := (roleHierarchyLookup r).getD 0

/-- JS comparison a >= b where a may be undefined (missing object key):
undefined compares as NaN, so the comparison is false. -/
def jsGe (a : Option Nat) (b : Nat) : Bool :=
  match a with
  | some n => n ≥ b
  | none => false

/-- Client hook hasRole: roleHierarchy of userRole (possibly undefined)
compared with roleHierarchy of the statically typed requiredRole. -/
def hasRole (userRole : String) (requiredRole : UserRole) : Bool :=
  jsGe (roleHierarchyLookup userRole) requiredRole.rank

/-- Client predicate: technician and admin can access analytics. -/
def canAccessAnalytics (userRole : String) : Bool := hasRole userRole .technician

/-- Client predicate: technician and admin can manage sensors. -/
def canManageSensors (userRole : String) : Bool := hasRole userRole .technician

/-- Client predicate: technician and admin can export data. -/
def canExportData (userRole : String) : Bool := hasRole userRole .technician

/-- Client predicate: only admin can manage users. -/
def canManageUsers (userRole : String) : Bool := hasRole userRole .admin

/-- Client predicate: only admin can access advanced settings. -/
def canAccessAdvancedSettings (userRole : String) : Bool := hasRole userRole .admin

/-! ### Server session data and authorization middleware -/

/-- The record stored in req.session.user by the login route. -/
structure SessionUser : Type where
  id : String
  username : String
  role : String
  access_token : String
  token_type : String
deriving DecidableEq, Repr

/-- Outcome of a middleware on one request: either an early JSON
rejection with a status and the error message, or pass-through to the
next handler. -/
inductive MwResult : Type
  | reject (status : Nat) (error : String)
  | pass
deriving DecidableEq, Repr

/-- Server middleware requireAuth: 401 when the session carries no user,
otherwise next(). -/
def requireAuth (sessionUser : Option SessionUser) : MwResult :=
  match sessionUser with
  | none => .reject 401 "Authentication required"
  | some _ => .pass

/-- Server middleware requireRole: 401 without a session user; otherwise
compare the rank of the session role (logical-or fallback 0) with the
rank of the required role; 403 when strictly below, else next(). -/
def requireRole (requiredRole : UserRole) (sessionUser : Option SessionUser) : MwResult :=
  match sessionUser with
  | none => .reject 401 "Authentication required"
  | some u =>
    if rank u.role < requiredRole.rank then .reject 403 "Insufficient permissions"
    else .pass

/-! ### Client auth context closures (AuthProvider) -/

/-- The non-secret identity projection the client caches after a
successful GET /api/user or login. -/
structure ClientUser : Type where
  id : String
  username : String
  role : String
deriving DecidableEq, Repr

/-- JS logical-or fallback on a string: the empty string is the only
falsy string. -/
def jsOrString (s d : String) : String := if s = "" then d else s

/-- The named permissions the AuthProvider exposes as closures. -/
inductive Permission : Type
  | accessAnalytics
  | manageSensors
  | exportData
  | manageUsers
  | accessAdvancedSettings
  | accessAdminPanel
deriving DecidableEq, Repr

/-- Minimum role of each permission, as hard-coded in the client
predicates (adminPanel is implemented by canManageUsers). -/
def Permission.minRole : Permission → UserRole
  | .accessAnalytics => .technician
  | .manageSensors => .technician
  | .exportData => .technician
  | .manageUsers => .admin
  | .accessAdvancedSettings => .admin
  | .accessAdminPanel => .admin

/-- The AuthProvider closure for one permission: false without a cached
user, otherwise the pure predicate applied to the cached role with the
logical-or fallback to the string user. -/
def ctxPermission (p : Permission) (cached : Option ClientUser) : Bool :=
  match cached with
  | none => false
  | some u =>
    match p with
    | .accessAnalytics => canAccessAnalytics (jsOrString u.role "user")
    | .manageSensors => canManageSensors (jsOrString u.role "user")
    | .exportData => canExportData (jsOrString u.role "user")
    | .manageUsers => canManageUsers (jsOrString u.role "user")
    | .accessAdvancedSettings => canAccessAdvancedSettings (jsOrString u.role "user")
    | .accessAdminPanel => canManageUsers (jsOrString u.role "user")

/-- The AuthProvider closure checkRole wrapping the pure hasRole. -/
def ctxHasRole (requiredRole : UserRole) (cached : Option ClientUser) : Bool :=
  match cached with
  | none => false
  | some u => hasRole (jsOrString u.role "user") requiredRole

/-! ### Session store and the login / logout routes (setupAuth) -/

/-- JSON object bodies are modelled as lists of key-value pairs with
string values; the key set is what the secrecy claims inspect. -/
def JsonObj : Type := List (String × String)

/-- Membership of a key in a JSON object body. -/
def JsonObj.hasKey (b : JsonObj) (k : String) : Bool :=
  (b.map Prod.fst).contains k

/-- The server-side session store: express-session MemoryStore contents,
session id mapped to the session user field. Session ids are drawn from
a monotone counter, modelling the generator of fresh opaque ids. -/
structure ServerState : Type where
  store : List (Nat × Option SessionUser)
  counter : Nat
deriving Repr

/-- Session ids present in the store. -/
def ServerState.sids (st : ServerState) : List Nat := st.store.map Prod.fst

/-- Lookup of a session id in the store. -/
def ServerState.lookup (st : ServerState) (sid : Nat) : Option (Option SessionUser) :=
  (st.store.find? (fun p => p.1 = sid)).map Prod.snd

/-- Freshness invariant of the id generator: every id ever placed in the
store was drawn below the counter. -/
def ServerState.Fresh (st : ServerState) : Prop :=
  ∀ p ∈ st.store, p.1 < st.counter

/-- Modelled from the spec and the express-session dependency (not part
of src): req.session.regenerate destroys the session under the current
id and issues a fresh id carrying an empty session; the handler callback
then runs on the new session. Modelled as removal of the old id plus
allocation of the counter as the new id. -/
def regenerate (currentSid : Nat) (st : ServerState) : Nat × ServerState :=
  (st.counter,
   { store := (st.counter, none) :: st.store.filter (fun p => p.1 ≠ currentSid),
     counter := st.counter + 1 })

/-- Write the user field of one session in the store. -/
def ServerState.setUser (st : ServerState) (sid : Nat) (u : SessionUser) : ServerState :=
  { st with store := st.store.map (fun p => if p.1 = sid then (p.1, some u) else p) }

/-- The identity payload the external FastAPI collaborator returns on a
successful credential check. -/
structure CollabIdentity : Type where
  id : String
  username : String
  role : String
  access_token : String
  token_type : String
deriving DecidableEq, Repr

/-- Outcome of the fetch to the collaborator login endpoint: a 2xx JSON
payload, a 401, another non-ok status (the handler throws), or a network
failure (fetch throws). -/
inductive CollabResult : Type
  | ok (data : CollabIdentity)
  | unauthorized
  | httpError (status : Nat) (body : String)
  | unreachable
deriving DecidableEq, Repr

/-- A login request body field: absent, or present with a string value.
The handler tests it with JS negation, so absent and empty are falsy. -/
def fieldFalsy (f : Option String) : Bool :=
  match f with
  | none => true
  | some s => s = ""

/-- An HTTP response of the login route: status plus JSON body. -/
structure HttpResponse : Type where
  status : Nat
  body : JsonObj

/-- Result of one POST /api/login request: the response, the session
store afterwards, and the session id the response cookie binds the
client to afterwards. -/
structure LoginResult : Type where
  response : HttpResponse
  state : ServerState
  cookieSid : Nat

/-- The session user record the login handler stores: identity fields
plus the collaborator token material. -/
def sessionUserOfData (d : CollabIdentity) : SessionUser :=
  { id := d.id, username := d.username, role := d.role,
    access_token := d.access_token, token_type := d.token_type }

/-- The JSON body the login handler sends on success: id, username,
role, access_token and token_type, in source order. -/
def loginSuccessBody (d : CollabIdentity) : JsonObj :=
  [("id", d.id), ("username", d.username), ("role", d.role),
   ("access_token", d.access_token), ("token_type", d.token_type)]

/-- The POST /api/login handler. Arguments: the two body fields, the
collaborator outcome (the fetch is only reached when validation passed),
the session id of the incoming request, and the store. Mirrors the
source: field validation, the 401 branch, the throw branch caught as
500, and on success the session-user assignment, the regenerate call,
the re-assignment on the fresh session, and the JSON response. -/
def loginHandler (username password : Option String) (collab : CollabResult)
    (currentSid : Nat) (st : ServerState) : LoginResult :=
  if fieldFalsy username || fieldFalsy password then
    { response := { status := 400, body := [("error", "Username and password are required")] },
      state := st, cookieSid := currentSid }
  else
    match collab with
    | .unauthorized =>
      { response := { status := 401, body := [("error", "Invalid username or password")] },
        state := st, cookieSid := currentSid }
    | .httpError _ _ =>
      { response := { status := 500, body := [("error", "Internal server error")] },
        state := st, cookieSid := currentSid }
    | .unreachable =>
      { response := { status := 500, body := [("error", "Internal server error")] },
        state := st, cookieSid := currentSid }
    | .ok d =>
      let st1 := st.setUser currentSid (sessionUserOfData d)
      let (newSid, st2) := regenerate currentSid st1
      let st3 := st2.setUser newSid (sessionUserOfData d)
      { response := { status := 200, body := loginSuccessBody d },
        state := st3, cookieSid := newSid }

/-- The POST /api/logout handler: req.session.destroy removes the
session under the current id from the MemoryStore (a no-op success when
absent) and the handler answers 200. -/
def logoutHandler (currentSid : Nat) (st : ServerState) : Nat × ServerState :=
  (200, { st with store := st.store.filter (fun p => p.1 ≠ currentSid) })

/-! ### In-memory storage (MemStorage) -/

/-- A stored user record, per the shared schema users table. -/
structure User : Type where
  id : String
  username : String
  password : String
  role : String
deriving DecidableEq, Repr

/-- The users JS Map: an association list in insertion order. -/
abbrev UserStore : Type := List (String × User)

/-- Map.get: first (and only) binding of the key. -/
def mapGet (m : UserStore) (k : String) : Option User :=
  (m.find? (fun p => p.1 = k)).map Prod.snd

/-- Map.set: replace the value in place when the key is bound (keys are
unique in a JS Map), else append the new binding at the end. -/
def mapSet (m : UserStore) (k : String) (v : User) : UserStore :=
  match m with
  | [] => [(k, v)]
  | p :: rest => if p.1 = k then (k, v) :: rest else p :: mapSet rest k v

/-- MemStorage.updateUserRole: get the user, throw the string
User not found when absent, otherwise set the spread copy with the role
replaced. Returns the updated user and the store afterwards. -/
def updateUserRole (users : UserStore) (id : String) (role : String) :
    Except String (User × UserStore) :=
  match mapGet users id with
  | none => .error "User not found"
  | some u =>
    let updatedUser : User := { u with role := role }
    .ok (updatedUser, mapSet users id updatedUser)

/-- MemStorage.getAllUsers: the values of the map in insertion order. -/
def getAllUsers (users : UserStore) : List User := users.map Prod.snd

/-! ### Admin role-mutation route (PATCH /api/admin/users/:id/role) -/

/-- The sanitized user body: the password field is destructured away and
the rest is sent as JSON. -/
def sanitizedUserBody (u : User) : JsonObj :=
  [("id", u.id), ("username", u.username), ("role", u.role)]

/-- The PATCH /api/admin/users/:id/role handler body (after its
requireRole admin middleware has passed): validate the role against the
three literals, call updateUserRole, map the User not found throw to
404, any other throw to 500, and answer 200 with the sanitized user. -/
def patchUserRoleHandler (users : UserStore) (id : String) (role : String) :
    HttpResponse × UserStore :=
  if ¬ (["admin", "technician", "user"].contains role) then
    ({ status := 400, body := [("message", "Invalid role")] }, users)
  else
    match updateUserRole users id role with
    | .error e =>
      if e = "User not found" then
        ({ status := 404, body := [("message", "User not found")] }, users)
      else
        ({ status := 500, body := [("message", "Failed to update user role")] }, users)
    | .ok (updatedUser, users2) =>
      ({ status := 200, body := sanitizedUserBody updatedUser }, users2)

/-! ### Route wiring: middleware chains on the public GET endpoints -/

/-- Run a chain of middlewares on the request session: the first
rejection wins, otherwise control reaches the handler. -/
def runMiddlewares (mws : List (Option SessionUser → MwResult))
    (sessionUser : Option SessionUser) : Option (Nat × String) :=
  match mws with
  | [] => none
  | mw :: rest =>
    match mw sessionUser with
    | .reject s e => some (s, e)
    | .pass => runMiddlewares rest sessionUser

/-- Outcome of the await on a storage method inside the try block: the
returned collection, or a thrown fault caught by the catch block. -/
inductive Fetched (α : Type) : Type
  | ok (val : α)
  | fault

/-- A collection-returning endpoint response: status plus either the
collection or the catch-block error message. -/
structure CollectionResponse (α : Type) : Type where
  status : Nat
  payload : Except String α

/-- Generic dispatch of a registered route: apply its middleware chain,
then the handler. -/
def runRoute {α : Type} (mws : List (Option SessionUser → MwResult))
    (sessionUser : Option SessionUser) (handlerResult : CollectionResponse α) :
    CollectionResponse α :=
  match runMiddlewares mws sessionUser with
  | some (s, e) => { status := s, payload := .error e }
  | none => handlerResult

/-- The middleware chain registered on GET /api/sensors: none. -/
def sensorsRouteMws : List (Option SessionUser → MwResult) := []

/-- The middleware chain registered on GET /api/measurements: none. -/
def measurementsRouteMws : List (Option SessionUser → MwResult) := []

/-- The GET /api/sensors handler: answer the fetched collection as JSON,
or 500 with the catch-block message. Elements are opaque here; the
handler never inspects them. -/
def getSensorsHandler {α : Type} (fetched : Fetched (List α)) :
    CollectionResponse (List α) :=
  match fetched with
  | .ok l => { status := 200, payload := .ok l }
  | .fault => { status := 500, payload := .error "Failed to fetch sensors" }

/-- The GET /api/measurements handler, same shape with its own catch
message. -/
def getMeasurementsHandler {α : Type} (fetched : Fetched (List α)) :
    CollectionResponse (List α) :=
  match fetched with
  | .ok l => { status := 200, payload := .ok l }
  | .fault => { status := 500, payload := .error "Failed to fetch measurements" }

/-- GET /api/sensors as registered: no middleware, then the handler. -/
def getSensorsEndpoint {α : Type} (sessionUser : Option SessionUser)
    (fetched : Fetched (List α)) : CollectionResponse (List α) :=
  runRoute sensorsRouteMws sessionUser (getSensorsHandler fetched)

/-- GET /api/measurements as registered: no middleware, then the
handler. -/
def getMeasurementsEndpoint {α : Type} (sessionUser : Option SessionUser)
    (fetched : Fetched (List α)) : CollectionResponse (List α) :=
  runRoute measurementsRouteMws sessionUser (getMeasurementsHandler fetched)

/-! ### Helper lemmas -/

/-- Rank of the string form of a typed role agrees with the typed rank. -/
lemma rank_str (r : UserRole) : rank r.str = r.rank := by
  cases r <;> decide

/-- The requireRole middleware passes exactly on sufficient rank. -/
lemma requireRole_pass_iff (m : UserRole) (u : SessionUser) :
    requireRole m (some u) = .pass ↔ m.rank ≤ rank u.role := by
  show (if rank u.role < m.rank then MwResult.reject 403 "Insufficient permissions"
        else MwResult.pass) = .pass ↔ m.rank ≤ rank u.role
  split_ifs with h
  · simp only [reduceCtorEq, false_iff]
    omega
  · simp only [true_iff]
    omega

/-- The client predicate with the logical-or fallback agrees with the
rank comparison for every threshold of rank at least 2. -/
lemma hasRole_fallback_eq (r : String) (m : UserRole) (hm : 2 ≤ m.rank) :
    hasRole (jsOrString r "user") m = decide (m.rank ≤ rank r) := by
  by_cases h0 : r = ""
  · subst h0
    cases m
    · decide
    · decide
    · exact absurd hm (by decide)
  · rw [jsOrString, if_neg h0]
    by_cases ha : r = "admin"
    · subst ha; cases m <;> decide
    · by_cases ht : r = "technician"
      · subst ht; cases m <;> decide
      · by_cases hu : r = "user"
        · subst hu; cases m <;> decide
        · have hlk : roleHierarchyLookup r = none := by
            simp [roleHierarchyLookup, ha, ht, hu]
          have hrk : rank r = 0 := by simp [rank, hlk]
          rw [hasRole, hlk, hrk]
          simp [jsGe]
          omega

/-- Generic find? after filtering a key away yields nothing. -/
lemma find?_filter_ne {α : Type} (l : List (Nat × α)) (sid : Nat) :
    (l.filter (fun p => p.1 ≠ sid)).find? (fun p => p.1 = sid) = none := by
  rw [List.find?_eq_none]
  intro x hx
  have hmem := (List.mem_filter).mp hx
  simpa using hmem.2

/-- Filtering twice with the same predicate is the same as once. -/
lemma filter_twice {α : Type} (q : α → Bool) (l : List α) :
    (l.filter q).filter q = l.filter q := by
  induction l with
  | nil => rfl
  | cons hd tl ih =>
    by_cases h : q hd = true
    · simp [List.filter, h, ih]
    · simp [List.filter, h, ih]

/-! ### Claim theorems -/

/-- C4: for roles in the admin / technician / user set, hasRole is the
rank comparison with ranks 3, 2, 1; every other string ranks 0 and
fails hasRole against any typed required role, since every typed role
has positive rank. The embedding functions are total Lean functions, as
the source functions are pure and total. -/
theorem C4_role_hierarchy :
    (∀ r1 r2 : UserRole, hasRole r1.str r2 = true ↔ rank r2.str ≤ rank r1.str)
    ∧ rank "admin" = 3 ∧ rank "technician" = 2 ∧ rank "user" = 1
    ∧ (∀ s : String, s ≠ "admin" → s ≠ "technician" → s ≠ "user" →
        rank s = 0 ∧ ∀ r2 : UserRole, hasRole s r2 = false) := by
  refine ⟨?_, by decide, by decide, by decide, ?_⟩
  · intro r1 r2
    cases r1 <;> cases r2 <;> decide
  · intro s h1 h2 h3
    have hlk : roleHierarchyLookup s = none := by
      simp [roleHierarchyLookup, h1, h2, h3]
    constructor
    · simp [rank, hlk]
    · intro r2
      simp [hasRole, hlk, jsGe]

/-- C4 witness: evaluation at a role inside the set and the concrete
unrecognized role string superuser. -/
theorem C4_role_hierarchy_witness :
    rank "superuser" = 0 ∧ hasRole "superuser" UserRole.user = false
    ∧ hasRole "admin" UserRole.technician = true :=
  ⟨(C4_role_hierarchy.2.2.2.2 "superuser" (by decide) (by decide) (by decide)).1,
   (C4_role_hierarchy.2.2.2.2 "superuser" (by decide) (by decide) (by decide)).2 UserRole.user,
   (C4_role_hierarchy.1 UserRole.admin UserRole.technician).mpr (by decide)⟩

/-- C5: requireRole answers 401 Authentication required exactly on a
missing session user, 403 Insufficient permissions exactly on a session
whose role ranks strictly below the required role, and passes exactly on
sufficient rank. -/
theorem C5_requireRole_gate (minRole : UserRole) (sessionUser : Option SessionUser) :
    (requireRole minRole sessionUser = .reject 401 "Authentication required"
      ↔ sessionUser = none)
    ∧ (requireRole minRole sessionUser = .reject 403 "Insufficient permissions"
      ↔ ∃ u, sessionUser = some u ∧ rank u.role < minRole.rank)
    ∧ (requireRole minRole sessionUser = .pass
      ↔ ∃ u, sessionUser = some u ∧ minRole.rank ≤ rank u.role) := by
  cases sessionUser with
  | none => simp [requireRole]
  | some u =>
    have hred : requireRole minRole (some u) =
        (if rank u.role < minRole.rank then MwResult.reject 403 "Insufficient permissions"
         else MwResult.pass) := rfl
    rw [hred]
    split_ifs with h
    · refine ⟨by simp, ?_, ?_⟩
      · simp only [reduceCtorEq, false_iff, true_iff]
        exact ⟨u, rfl, h⟩
      · simp only [reduceCtorEq, false_iff, not_exists]
        rintro v ⟨hv, hrank⟩
        cases hv
        omega
    · refine ⟨by simp, ?_, ?_⟩
      · simp only [reduceCtorEq, false_iff, not_exists]
        rintro v ⟨hv, hrank⟩
        cases hv
        omega
      · simp only [true_iff]
        exact ⟨u, rfl, by omega⟩

/-- C5 witness: a technician session at the technician gate passes, the
same session at the admin gate is rejected 403, and no session is
rejected 401. -/
theorem C5_requireRole_gate_witness :
    requireRole UserRole.admin none = .reject 401 "Authentication required"
    ∧ requireRole UserRole.admin
        (some { id := "1", username := "t", role := "technician",
                access_token := "", token_type := "" })
      = .reject 403 "Insufficient permissions"
    ∧ requireRole UserRole.technician
        (some { id := "1", username := "t", role := "technician",
                access_token := "", token_type := "" })
      = .pass := by
  refine ⟨?_, ?_, ?_⟩
  · exact (C5_requireRole_gate UserRole.admin none).1.mpr rfl
  · exact (C5_requireRole_gate UserRole.admin _).2.1.mpr ⟨_, rfl, by decide⟩
  · exact (C5_requireRole_gate UserRole.technician _).2.2.mpr ⟨_, rfl, by decide⟩

/-- C3: for every permission and every role string, the AuthProvider
closure over a cached identity with that role answers true exactly when
the server requireRole middleware at the minimum role of the permission
passes a session carrying the same role string; in particular the
manage-users closure agrees with the admin gate. -/
theorem C3_client_server_agree (p : Permission) (c : ClientUser) (s : SessionUser)
    (hrole : c.role = s.role) :
    ctxPermission p (some c) = true ↔ requireRole p.minRole (some s) = .pass := by
  have hmin : 2 ≤ p.minRole.rank := by cases p <;> decide
  have hclient : ctxPermission p (some c)
      = hasRole (jsOrString c.role "user") p.minRole := by
    cases p <;> rfl
  rw [hclient, hasRole_fallback_eq c.role p.minRole hmin, requireRole_pass_iff, hrole]
  simp

/-- C3 witness: the agreement applied to the manage-users permission on
a concrete technician identity and its matching session. -/
theorem C3_client_server_agree_witness :
    ctxPermission Permission.manageUsers
        (some { id := "1", username := "t", role := "technician" }) = true
      ↔ requireRole UserRole.admin
          (some { id := "1", username := "t", role := "technician",
                  access_token := "", token_type := "" }) = .pass :=
  C3_client_server_agree Permission.manageUsers
    { id := "1", username := "t", role := "technician" }
    { id := "1", username := "t", role := "technician",
      access_token := "", token_type := "" } rfl

/-- Setting a key makes it map to the new value. -/
lemma mapGet_mapSet_self (m : UserStore) (k : String) (v : User) :
    mapGet (mapSet m k v) k = some v := by
  induction m with
  | nil => simp [mapSet, mapGet, List.find?]
  | cons p rest ih =>
    by_cases hk : p.1 = k
    · simp [mapSet, hk, mapGet, List.find?]
    · simpa [mapSet, hk, mapGet, List.find?] using ih

/-- Reading a cons cell: the head answers when its key matches. -/
lemma mapGet_cons (p : String × User) (rest : UserStore) (k : String) :
    mapGet (p :: rest) k = if p.1 = k then some p.2 else mapGet rest k := by
  by_cases hp : p.1 = k
  · simp [mapGet, List.find?, hp]
  · simp [mapGet, List.find?, hp]

/-- Setting one key leaves every other key untouched. -/
lemma mapGet_mapSet_ne (m : UserStore) (k : String) (v : User) (k2 : String)
    (h : k2 ≠ k) :
    mapGet (mapSet m k v) k2 = mapGet m k2 := by
  have hne : k ≠ k2 := Ne.symm h
  induction m with
  | nil =>
    simp [mapSet, mapGet, List.find?, hne]
  | cons p rest ih =>
    simp only [mapSet]
    by_cases hk : p.1 = k
    · have hp2 : p.1 ≠ k2 := by rw [hk]; exact hne
      rw [if_pos hk, mapGet_cons, mapGet_cons, if_neg hp2]
      exact if_neg hne
    · rw [if_neg hk, mapGet_cons, mapGet_cons, ih]

/-- C10: the sensors and measurements GET endpoints carry no middleware,
so every request, with or without a session, reaches the handler: the
status is 200 with the fetched collection, or 500 on a storage fault,
and never 401 or 403. -/
theorem C10_public_collections {α : Type} (sessionUser : Option SessionUser)
    (fs fm : Fetched (List α)) :
    ((getSensorsEndpoint sessionUser fs).status = 200
      ∨ (getSensorsEndpoint sessionUser fs).status = 500)
    ∧ ((getMeasurementsEndpoint sessionUser fm).status = 200
      ∨ (getMeasurementsEndpoint sessionUser fm).status = 500)
    ∧ (∀ l, fs = .ok l →
        getSensorsEndpoint sessionUser fs = { status := 200, payload := .ok l })
    ∧ (∀ l, fm = .ok l →
        getMeasurementsEndpoint sessionUser fm = { status := 200, payload := .ok l })
    ∧ (fs = .fault → (getSensorsEndpoint sessionUser fs).status = 500)
    ∧ (fm = .fault → (getMeasurementsEndpoint sessionUser fm).status = 500) := by
  cases fs <;> cases fm <;>
    simp [getSensorsEndpoint, getMeasurementsEndpoint, runRoute, runMiddlewares,
      sensorsRouteMws, measurementsRouteMws, getSensorsHandler, getMeasurementsHandler]

/-- C10 witness: a request with no session at all gets the stored
collection from the sensors endpoint and a 500 from a faulting
measurements fetch. -/
theorem C10_public_collections_witness :
    getSensorsEndpoint (α := Nat) none (.ok [7])
      = { status := 200, payload := .ok [7] }
    ∧ (getMeasurementsEndpoint (α := Nat) none .fault).status = 500 :=
  ⟨(C10_public_collections none (.ok [7]) (.fault)).2.2.1 [7] rfl,
   (C10_public_collections none (Fetched.ok [7]) (Fetched.fault)).2.2.2.2.2 rfl⟩

/-- C8: logout answers 200 for every incoming session id, including one
bound to no stored session; a second logout also answers 200 and leaves
the store exactly as the first did, and afterwards the session id is
gone from the store. -/
theorem C8_logout_idempotent (sid : Nat) (st : ServerState) :
    (logoutHandler sid st).1 = 200
    ∧ (logoutHandler sid (logoutHandler sid st).2).1 = 200
    ∧ (logoutHandler sid (logoutHandler sid st).2).2 = (logoutHandler sid st).2
    ∧ ServerState.lookup (logoutHandler sid st).2 sid = none := by
  refine ⟨rfl, rfl, ?_, ?_⟩
  · simp only [logoutHandler]
    rw [filter_twice]
  · simp only [logoutHandler, ServerState.lookup]
    rw [find?_filter_ne]
    rfl

/-- C9: updateUserRole on a bound user id succeeds with a record whose
id, username and password are those of the stored user and whose role is
the requested one; that record replaces the binding at the id and every
other key reads back unchanged. -/
theorem C9_updateUserRole_frame (users : UserStore) (id role : String) (u : User)
    (h : mapGet users id = some u) :
    ∃ u2 users2, updateUserRole users id role = .ok (u2, users2)
    ∧ u2.id = u.id ∧ u2.username = u.username ∧ u2.password = u.password
    ∧ u2.role = role
    ∧ mapGet users2 id = some u2
    ∧ (∀ k, k ≠ id → mapGet users2 k = mapGet users k) := by
  refine ⟨{ u with role := role }, mapSet users id { u with role := role }, ?_,
    rfl, rfl, rfl, rfl, mapGet_mapSet_self users id _, ?_⟩
  · unfold updateUserRole
    rw [h]
  · intro k hk
    exact mapGet_mapSet_ne users id _ k hk

/-- C9 witness: a two-user store where the second user is promoted to
technician; the first user reads back unchanged. -/
theorem C9_updateUserRole_frame_witness :
    mapGet [("a", { id := "a", username := "x", password := "p", role := "admin" }),
            ("b", { id := "b", username := "y", password := "q", role := "user" })]
        "b" = some { id := "b", username := "y", password := "q", role := "user" }
    ∧ ∃ u2 users2,
        updateUserRole
          [("a", { id := "a", username := "x", password := "p", role := "admin" }),
           ("b", { id := "b", username := "y", password := "q", role := "user" })]
          "b" "technician" = .ok (u2, users2)
        ∧ u2.id = "b" ∧ u2.username = "y" ∧ u2.password = "q" ∧ u2.role = "technician"
        ∧ mapGet users2 "a"
            = some { id := "a", username := "x", password := "p", role := "admin" } := by
  have hget : mapGet
      [("a", { id := "a", username := "x", password := "p", role := "admin" }),
       ("b", { id := "b", username := "y", password := "q", role := "user" })]
      "b" = some { id := "b", username := "y", password := "q", role := "user" } := by
    decide
  obtain ⟨u2, users2, heq, hid, hun, hpw, hrl, _, hframe⟩ :=
    C9_updateUserRole_frame
      [("a", { id := "a", username := "x", password := "p", role := "admin" }),
       ("b", { id := "b", username := "y", password := "q", role := "user" })]
      "b" "technician" { id := "b", username := "y", password := "q", role := "user" } hget
  refine ⟨hget, u2, users2, heq, hid, hun, hpw, hrl, ?_⟩
  rw [hframe "a" (by decide)]
  decide

/-- C7: behind its admin gate, the role-mutation route answers 400 on a
role outside the three literals, 404 when the id is unbound, and on a
bound id answers 200 with the sanitized updated record, which carries no
password key; its body is exactly the stored user with the new role,
minus the password. -/
theorem C7_patch_role_route (users : UserStore) (id role : String) :
    ((["admin", "technician", "user"] : List String).contains role = false →
      patchUserRoleHandler users id role
        = ({ status := 400, body := [("message", "Invalid role")] }, users))
    ∧ ((["admin", "technician", "user"] : List String).contains role = true →
        mapGet users id = none →
      patchUserRoleHandler users id role
        = ({ status := 404, body := [("message", "User not found")] }, users))
    ∧ (∀ u, (["admin", "technician", "user"] : List String).contains role = true →
        mapGet users id = some u →
      (patchUserRoleHandler users id role).1.status = 200
      ∧ (patchUserRoleHandler users id role).1.body
          = sanitizedUserBody { u with role := role }
      ∧ (patchUserRoleHandler users id role).1.body.hasKey "password" = false) := by
  refine ⟨?_, ?_, ?_⟩
  · intro hrole
    have hcond : ¬ ((["admin", "technician", "user"] : List String).contains role = true) := by
      rw [hrole]
      exact Bool.false_ne_true
    unfold patchUserRoleHandler
    rw [if_pos hcond]
  · intro hrole hget
    unfold patchUserRoleHandler
    rw [if_neg (not_not_intro hrole), updateUserRole, hget]
    simp
  · intro u hrole hget
    have hpatch : patchUserRoleHandler users id role
        = ({ status := 200, body := sanitizedUserBody { u with role := role } },
           mapSet users id { u with role := role }) := by
      unfold patchUserRoleHandler
      rw [if_neg (not_not_intro hrole), updateUserRole, hget]
    rw [hpatch]
    refine ⟨rfl, rfl, ?_⟩
    simp [sanitizedUserBody, JsonObj.hasKey]

/-- C7 witness: the three branches at a concrete one-user store: the
superuser role is rejected 400, an unbound id gives 404, and promoting
the bound user answers 200 without a password key. -/
theorem C7_patch_role_route_witness :
    patchUserRoleHandler
        [("a", { id := "a", username := "x", password := "p", role := "user" })]
        "a" "superuser"
      = ({ status := 400, body := [("message", "Invalid role")] },
         [("a", { id := "a", username := "x", password := "p", role := "user" })])
    ∧ patchUserRoleHandler
        [("a", { id := "a", username := "x", password := "p", role := "user" })]
        "zz" "admin"
      = ({ status := 404, body := [("message", "User not found")] },
         [("a", { id := "a", username := "x", password := "p", role := "user" })])
    ∧ (patchUserRoleHandler
        [("a", { id := "a", username := "x", password := "p", role := "user" })]
        "a" "admin").1.status = 200
    ∧ (patchUserRoleHandler
        [("a", { id := "a", username := "x", password := "p", role := "user" })]
        "a" "admin").1.body.hasKey "password" = false := by
  refine ⟨?_, ?_, ?_, ?_⟩
  · exact (C7_patch_role_route
      [("a", { id := "a", username := "x", password := "p", role := "user" })]
      "a" "superuser").1 (by decide)
  · exact (C7_patch_role_route
      [("a", { id := "a", username := "x", password := "p", role := "user" })]
      "zz" "admin").2.1 (by decide) (by decide)
  · exact ((C7_patch_role_route
      [("a", { id := "a", username := "x", password := "p", role := "user" })]
      "a" "admin").2.2 { id := "a", username := "x", password := "p", role := "user" }
      (by decide) (by decide)).1
  · exact ((C7_patch_role_route
      [("a", { id := "a", username := "x", password := "p", role := "user" })]
      "a" "admin").2.2 { id := "a", username := "x", password := "p", role := "user" }
      (by decide) (by decide)).2.2

/-- C6: every non-200 outcome of the login route leaves the session
store exactly as it was and answers a body whose only key is error, so
no identity data and no session user state arises; the enumerated
failure modes map to 400 (missing field), 401 (collaborator rejected
the credentials) and 500 (collaborator unreachable or erroring). -/
theorem C6_login_failure_atomic (username password : Option String)
    (collab : CollabResult) (sid : Nat) (st : ServerState) :
    ((fieldFalsy username || fieldFalsy password) = true →
      (loginHandler username password collab sid st).response.status = 400)
    ∧ ((fieldFalsy username || fieldFalsy password) = false → collab = .unauthorized →
      (loginHandler username password collab sid st).response.status = 401)
    ∧ ((fieldFalsy username || fieldFalsy password) = false →
        (collab = .unreachable ∨ ∃ s b, collab = .httpError s b) →
      (loginHandler username password collab sid st).response.status = 500)
    ∧ ((loginHandler username password collab sid st).response.status ≠ 200 →
      (loginHandler username password collab sid st).state = st
      ∧ ((loginHandler username password collab sid st).response.body).map Prod.fst
          = ["error"]) := by
  by_cases hval : (fieldFalsy username || fieldFalsy password) = true
  · refine ⟨fun _ => ?_, fun hv => absurd hval (by simp [hv]), fun hv => absurd hval (by simp [hv]), fun _ => ?_⟩
    · simp [loginHandler, hval]
    · simp [loginHandler, hval]
  · have hval2 : (fieldFalsy username || fieldFalsy password) = false := by
      simpa using hval
    refine ⟨fun hc => absurd hc hval, fun _ hc => ?_, fun _ hc => ?_, fun hne => ?_⟩
    · subst hc
      simp [loginHandler, hval2]
    · rcases hc with hc | ⟨s, b, hc⟩ <;> subst hc <;> simp [loginHandler, hval2]
    · cases collab with
      | ok d =>
        exact absurd (by simp [loginHandler, hval2]) hne
      | unauthorized => simp [loginHandler, hval2]
      | httpError s b => simp [loginHandler, hval2]
      | unreachable => simp [loginHandler, hval2]

/-- C6 witness: an empty username gives 400 with an untouched empty
store, and rejected credentials give 401 with an untouched store. -/
theorem C6_login_failure_atomic_witness :
    (loginHandler (some "") (some "pw") CollabResult.unauthorized 0
      { store := [], counter := 1 }).response.status = 400
    ∧ (loginHandler (some "alice") (some "pw") CollabResult.unauthorized 0
      { store := [], counter := 1 }).response.status = 401
    ∧ (loginHandler (some "alice") (some "pw") CollabResult.unreachable 0
      { store := [], counter := 1 }).state = { store := [], counter := 1 } := by
  refine ⟨?_, ?_, ?_⟩
  · exact (C6_login_failure_atomic (some "") (some "pw") CollabResult.unauthorized 0
      { store := [], counter := 1 }).1 (by decide)
  · exact (C6_login_failure_atomic (some "alice") (some "pw") CollabResult.unauthorized 0
      { store := [], counter := 1 }).2.1 (by decide) rfl
  · exact ((C6_login_failure_atomic (some "alice") (some "pw") CollabResult.unreachable 0
      { store := [], counter := 1 }).2.2.2 (by decide)).1

/-- Rewriting the value stored at one key does not change what find?
sees at a different key. -/
lemma find?_setKey_ne (l : List (Nat × Option SessionUser)) (s t : Nat)
    (u : SessionUser) (h : t ≠ s) :
    (l.map (fun p => if p.1 = s then (p.1, some u) else p)).find? (fun p => p.1 = t)
      = l.find? (fun p => p.1 = t) := by
  induction l with
  | nil => rfl
  | cons p rest ih =>
    by_cases hp : p.1 = s
    · have hpt : ¬ (p.1 = t) := fun hc => h (hc ▸ hp)
      simp [List.find?, hp, hpt, Ne.symm h, ih]
    · by_cases hpt : p.1 = t
      · simp [List.find?, hp, hpt, h]
      · simp [List.find?, hp, hpt, ih]

/-- C2: a successful login answers 200 and binds the client to a fresh
session id: it is outside every id the store held before
authentication, differs from the pre-auth id of the request, the
pre-auth id is gone from the store, and the fresh id carries the
authenticated identity. -/
theorem C2_session_fixation (username password : Option String) (d : CollabIdentity)
    (sid : Nat) (st : ServerState)
    (hfields : (fieldFalsy username || fieldFalsy password) = false)
    (hfresh : st.Fresh) (hsid : sid < st.counter) :
    (loginHandler username password (.ok d) sid st).response.status = 200
    ∧ (loginHandler username password (.ok d) sid st).cookieSid ∉ st.sids
    ∧ (loginHandler username password (.ok d) sid st).cookieSid ≠ sid
    ∧ (loginHandler username password (.ok d) sid st).state.lookup sid = none
    ∧ (loginHandler username password (.ok d) sid st).state.lookup
        ((loginHandler username password (.ok d) sid st).cookieSid)
        = some (some (sessionUserOfData d)) := by
  have hL : loginHandler username password (.ok d) sid st =
      { response := { status := 200, body := loginSuccessBody d },
        state :=
          { store :=
              List.map
                (fun p => if p.1 = st.counter then (p.1, some (sessionUserOfData d)) else p)
                ((st.counter, none) ::
                  List.filter (fun p => p.1 ≠ sid)
                    (st.setUser sid (sessionUserOfData d)).store),
            counter := st.counter + 1 },
        cookieSid := st.counter } := by
    unfold loginHandler
    rw [hfields]
    rfl
  rw [hL]
  dsimp only
  have hne : ¬ ((st.counter : Nat) = sid) := by omega
  refine ⟨rfl, ?_, by omega, ?_, ?_⟩
  · intro hmem
    obtain ⟨p, hp, hp1⟩ := List.mem_map.mp hmem
    have := hfresh p hp
    omega
  · show (ServerState.lookup _ sid) = none
    unfold ServerState.lookup
    rw [find?_setKey_ne _ _ _ _ (by omega)]
    simp only [List.find?, hne, decide_eq_true_eq, decide_eq_false hne]
    rw [find?_filter_ne]
    rfl
  · show (ServerState.lookup _ st.counter) = some (some (sessionUserOfData d))
    unfold ServerState.lookup
    rw [List.map_cons]
    simp [List.find?]

/-- C2 witness: a store holding one pre-auth session id 0; after login
the cookie id 1 is new, id 0 is invalid, and id 1 holds the identity. -/
theorem C2_session_fixation_witness :
    (loginHandler (some "alice") (some "pw")
        (.ok { id := "7", username := "alice", role := "user",
               access_token := "tok", token_type := "bearer" })
        0 { store := [(0, none)], counter := 1 }).response.status = 200
    ∧ (loginHandler (some "alice") (some "pw")
        (.ok { id := "7", username := "alice", role := "user",
               access_token := "tok", token_type := "bearer" })
        0 { store := [(0, none)], counter := 1 }).cookieSid ≠ 0
    ∧ (loginHandler (some "alice") (some "pw")
        (.ok { id := "7", username := "alice", role := "user",
               access_token := "tok", token_type := "bearer" })
        0 { store := [(0, none)], counter := 1 }).state.lookup 0 = none := by
  have happ := C2_session_fixation (some "alice") (some "pw")
    { id := "7", username := "alice", role := "user",
      access_token := "tok", token_type := "bearer" }
    0 { store := [(0, none)], counter := 1 } (by decide)
    (by
      intro p hp
      rcases List.mem_singleton.mp hp with rfl
      decide)
    (by decide)
  exact ⟨happ.1, happ.2.2.1, happ.2.2.2.1⟩

/-- C1 counterexample: a concrete successful login whose 200 response
body carries the access_token and token_type obtained from the
collaborator, contradicting the claim that only id, username and role
appear. -/
theorem C1_counterexample :
    (loginHandler (some "alice") (some "pw")
        (.ok { id := "1", username := "alice", role := "user",
               access_token := "tok", token_type := "bearer" })
        0 { store := [], counter := 1 }).response.status = 200
    ∧ ((loginHandler (some "alice") (some "pw")
        (.ok { id := "1", username := "alice", role := "user",
               access_token := "tok", token_type := "bearer" })
        0 { store := [], counter := 1 }).response.body).hasKey "access_token" = true
    ∧ ((loginHandler (some "alice") (some "pw")
        (.ok { id := "1", username := "alice", role := "user",
               access_token := "tok", token_type := "bearer" })
        0 { store := [], counter := 1 }).response.body).hasKey "token_type" = true := by
  refine ⟨rfl, by decide, by decide⟩

/-- C1 amended: the 200 body of a successful login carries exactly the
five fields id, username, role, access_token and token_type, in source
order, with the values from the collaborator identity: the secret
material is forwarded to the client rather than kept server-side. -/
theorem C1_login_response_fields (username password : Option String)
    (d : CollabIdentity) (sid : Nat) (st : ServerState)
    (hfields : (fieldFalsy username || fieldFalsy password) = false) :
    (loginHandler username password (.ok d) sid st).response.status = 200
    ∧ (loginHandler username password (.ok d) sid st).response.body
        = [("id", d.id), ("username", d.username), ("role", d.role),
           ("access_token", d.access_token), ("token_type", d.token_type)] := by
  constructor
  · unfold loginHandler
    rw [hfields]
    rfl
  · unfold loginHandler
    rw [hfields]
    rfl

/-- C1 witness: the amended field list evaluated at a concrete
collaborator identity. -/
theorem C1_login_response_fields_witness :
    (loginHandler (some "bob") (some "pw2")
        (.ok { id := "9", username := "bob", role := "technician",
               access_token := "t9", token_type := "bearer" })
        0 { store := [], counter := 1 }).response.body
      = [("id", "9"), ("username", "bob"), ("role", "technician"),
         ("access_token", "t9"), ("token_type", "bearer")] :=
  (C1_login_response_fields (some "bob") (some "pw2")
    { id := "9", username := "bob", role := "technician",
      access_token := "t9", token_type := "bearer" }
    0 { store := [], counter := 1 } (by decide)).2

end TerraWeb
